import Mathlib

/-!
Shallow embedding of the rockflow bridge of matxscript:

* `include/matxscript/runtime/rockflow.h` declares the abstract context
  interface `matxscript::runtime::RockflowContext` together with its default
  (reference) method bodies.
* `src/ir/hlo_builtin_rockflow.cc` registers, via
  `MATXSCRIPT_IR_DEFINE_HLO_METHOD(rockflow_context, <op>, <Method>)`,
  one builtin descriptor per exposed operation, each carrying
  `set_num_inputs(n)` and a list of `add_argument(name, type_code, doc)`
  triples.

The embedding below transcribes both files: the C++ signatures of the
interface methods become a table of `MethodSig` values, the default method
bodies become state-passing Lean functions on a `RockflowContext` value, and
the eight registration statements become a table of `BuiltinEntry` values.
C++ `int64_t` is modelled as `Int` (the default bodies only ever produce the
literal `0`, so no wrap-around arithmetic occurs), `double` as `Rat` (the
default bodies only ever produce the literal `0.0`; no floating-point
arithmetic occurs), and both `std::string` and
`matxscript::runtime::string_view` as `String` (a default-constructed
`string_view{}` is the empty view).
-/

/-- C++ types occurring in the signatures of `RockflowContext`'s virtual
methods in `rockflow.h`: plain `int`, `int64_t`, `double`, `const
std::string&`, `matxscript::runtime::string_view`, and
`matxscript::runtime::FTList<T>`. -/
inductive CppType where
  | int32
  | int64
  | double
  | stdString
  | stringView
  | ftList (elem : CppType)
deriving DecidableEq, Repr

/-- Signature of one virtual method of `RockflowContext` as declared in
`rockflow.h`: the method name, the list of explicit parameter types (the
implicit `const this` receiver is not listed), and the return type. -/
structure MethodSig where
  name : String
  params : List CppType
  ret : CppType
deriving DecidableEq, Repr

/-- The base context class from `rockflow.h`. It declares no data members;
its only constructor, `RockflowContext(const matxscript::runtime::Any&)`,
has an empty body and discards its argument, so a value of this type carries
no state of its own. -/
structure RockflowContext where
deriving DecidableEq, Repr

/-- Opaque stand-in for `matxscript::runtime::Any`, the (ignored) argument
of the `RockflowContext` constructor. -/
structure Any where
deriving DecidableEq, Repr

/-- The constructor `RockflowContext(const Any&) {}`: it ignores its
argument and initializes no state. -/
def RockflowContext.ofAny (a : Any) : RockflowContext := {}

/-- Transcription of the declaration list of `RockflowContext` in
`rockflow.h`, in source order: `GetInt(const std::string&, int64_t) ->
int64_t`, `GetDouble(const std::string&, double) -> double`,
`GetString(const std::string&, const string_view&) -> string_view`,
`GetIntList(const std::string&) -> FTList<int64_t>`,
`GetDoubleList(const std::string&) -> FTList<double>`,
`GetStringList(const std::string&) -> FTList<string_view>`, and
`SetInt(const std::string&, int) -> int`. Note that `SetInt`'s value
parameter and return type are plain C++ `int`, not `int64_t`. -/
def RockflowContext.declaredMethods : List MethodSig :=
  [ ⟨"GetInt", [CppType.stdString, CppType.int64], CppType.int64⟩,
    ⟨"GetDouble", [CppType.stdString, CppType.double], CppType.double⟩,
    ⟨"GetString", [CppType.stdString, CppType.stringView], CppType.stringView⟩,
    ⟨"GetIntList", [CppType.stdString], CppType.ftList CppType.int64⟩,
    ⟨"GetDoubleList", [CppType.stdString], CppType.ftList CppType.double⟩,
    ⟨"GetStringList", [CppType.stdString], CppType.ftList CppType.stringView⟩,
    ⟨"SetInt", [CppType.stdString, CppType.int32], CppType.int32⟩ ]

/-- Default body of `GetInt` from `rockflow.h`: `return 0;`. The method is
`const`, so in state-passing form it returns the receiver unchanged; the
supplied `default_value` is ignored. -/
def RockflowContext.GetInt (self : RockflowContext) (attr : String)
    (default_value : Int) : Int × RockflowContext :=
  (0, self)

/-- Default body of `GetDouble` from `rockflow.h`: `return 0.0;`. -/
def RockflowContext.GetDouble (self : RockflowContext) (attr : String)
    (default_value : Rat) : Rat × RockflowContext :=
  (0, self)

/-- Default body of `GetString` from `rockflow.h`: `return string_view{};`,
the empty view. The supplied `default_value` is ignored. -/
def RockflowContext.GetString (self : RockflowContext) (attr : String)
    (default_value : String) : String × RockflowContext :=
  ("", self)

/-- Default body of `GetIntList` from `rockflow.h`:
`return FTList<int64_t>{};`, the empty list. -/
def RockflowContext.GetIntList (self : RockflowContext) (attr : String) :
    List Int × RockflowContext :=
  ([], self)

/-- Default body of `GetDoubleList` from `rockflow.h`:
`return FTList<double>{};`, the empty list. -/
def RockflowContext.GetDoubleList (self : RockflowContext) (attr : String) :
    List Rat × RockflowContext :=
  ([], self)

/-- Default body of `GetStringList` from `rockflow.h`:
`return FTList<string_view>{};`, the empty list. -/
def RockflowContext.GetStringList (self : RockflowContext) (attr : String) :
    List String × RockflowContext :=
  ([], self)

/-- Default body of `SetInt` from `rockflow.h`: `return 0;`. The value
parameter is a plain C++ `int`; the default body ignores it and, being
`const`, cannot modify the receiver. -/
def RockflowContext.SetInt (self : RockflowContext) (attr : String)
    (value : Int) : Int × RockflowContext :=
  (0, self)

/-- One `add_argument(name, type_code, description)` triple of a builtin
registration in `hlo_builtin_rockflow.cc`. -/
structure Argument where
  name : String
  type_code : String
  description : String
deriving DecidableEq, Repr

/-- One builtin descriptor produced by
`MATXSCRIPT_IR_DEFINE_HLO_METHOD(obj_type, op_name, BoundMethod)` followed
by its `set_num_inputs` and `add_argument` calls in
`hlo_builtin_rockflow.cc`. -/
structure BuiltinEntry where
  obj_type : String
  op_name : String
  bound_method : String
  num_inputs : Nat
  arguments : List Argument
deriving DecidableEq, Repr

/-- Registration of `rockflow_context.get_int`, bound to `GetInt`. -/
def rockflow_get_int : BuiltinEntry :=
  ⟨"rockflow_context", "get_int", "GetInt", 3,
    [⟨"self", "RockflowContext", ""⟩, ⟨"attr_name", "bytes", ""⟩,
     ⟨"default_value", "int", ""⟩]⟩

/-- Registration of `rockflow_context.get_double`, bound to `GetDouble`. -/
def rockflow_get_double : BuiltinEntry :=
  ⟨"rockflow_context", "get_double", "GetDouble", 3,
    [⟨"self", "RockflowContext", ""⟩, ⟨"attr_name", "bytes", ""⟩,
     ⟨"default_value", "float", ""⟩]⟩

/-- Registration of `rockflow_context.get_string`, bound to `GetString`. -/
def rockflow_get_string : BuiltinEntry :=
  ⟨"rockflow_context", "get_string", "GetString", 3,
    [⟨"self", "RockflowContext", ""⟩, ⟨"attr_name", "bytes", ""⟩,
     ⟨"default_value", "bytes", ""⟩]⟩

/-- Registration of `rockflow_context.get_int_list`, bound to `GetIntList`. -/
def rockflow_get_int_list : BuiltinEntry :=
  ⟨"rockflow_context", "get_int_list", "GetIntList", 2,
    [⟨"self", "RockflowContext", ""⟩, ⟨"attr_name", "bytes", ""⟩]⟩

/-- Registration of `rockflow_context.get_double_list`, bound to
`GetDoubleList`. -/
def rockflow_get_double_list : BuiltinEntry :=
  ⟨"rockflow_context", "get_double_list", "GetDoubleList", 2,
    [⟨"self", "RockflowContext", ""⟩, ⟨"attr_name", "bytes", ""⟩]⟩

/-- Registration of `rockflow_context.get_string_list`, bound to
`GetStringList`. -/
def rockflow_get_string_list : BuiltinEntry :=
  ⟨"rockflow_context", "get_string_list", "GetStringList", 2,
    [⟨"self", "RockflowContext", ""⟩, ⟨"attr_name", "bytes", ""⟩]⟩

/-- Registration of `rockflow_context.get_item_count`, bound to the method
name `GetItemCount`. -/
def rockflow_get_item_count : BuiltinEntry :=
  ⟨"rockflow_context", "get_item_count", "GetItemCount", 1,
    [⟨"self", "RockflowContext", ""⟩]⟩

/-- Registration of `rockflow_context.get_item_attr_assigner`, bound to the
method name `GetItemAttrAssigner`. -/
def rockflow_get_item_attr_assigner : BuiltinEntry :=
  ⟨"rockflow_context", "get_item_attr_assigner", "GetItemAttrAssigner", 2,
    [⟨"self", "RockflowContext", ""⟩, ⟨"index", "int", ""⟩]⟩

/-- All builtin registrations of `hlo_builtin_rockflow.cc`, in source
order. -/
def rockflow_context_builtins : List BuiltinEntry :=
  [ rockflow_get_int, rockflow_get_double, rockflow_get_string,
    rockflow_get_int_list, rockflow_get_double_list,
    rockflow_get_string_list, rockflow_get_item_count,
    rockflow_get_item_attr_assigner ]

/-- Encoding of a C++ interface type as the IR type code used by
`add_argument`: both byte-string types are declared "bytes", 64-bit
integers "int", doubles "float" (cf. the registrations in
`hlo_builtin_rockflow.cc`, which declare `attr_name` as "bytes",
`GetInt`'s `default_value` as "int" and `GetDouble`'s as "float").
List types occur only as return types and never as declared argument
types, so they are given no argument code. -/
def CppType.irTypeCode : CppType → Option String
  | CppType.int32 => some "int"
  | CppType.int64 => some "int"
  | CppType.double => some "float"
  | CppType.stdString => some "bytes"
  | CppType.stringView => some "bytes"
  | CppType.ftList _ => none

/-- An entry matches an interface method when it binds its name, declares
one argument per parameter plus the leading receiver, and the declared
argument type codes are the receiver type followed by the encodings of the
parameter types. -/
def entryMatchesMethod (e : BuiltinEntry) (m : MethodSig) : Prop :=
  e.bound_method = m.name ∧
  e.num_inputs = m.params.length + 1 ∧
  e.arguments.map Argument.type_code =
    "RockflowContext" :: m.params.filterMap CppType.irTypeCode

instance (e : BuiltinEntry) (m : MethodSig) :
    Decidable (entryMatchesMethod e m) := by
  unfold entryMatchesMethod
  infer_instance

/-- C1 counterexample: on the default (un-overridden) implementation, which
treats every attribute as absent, `GetInt("score", 7)` returns 0, not the
supplied default 7, and `GetString("k", "abc")` returns the empty view, not
"abc". -/
theorem c1_default_not_returned :
    (RockflowContext.GetInt {} "score" 7).1 ≠ 7 ∧
    (RockflowContext.GetString {} "k" "abc").1 ≠ "abc" := by
  constructor
  · decide
  · decide

/-- C1 (amended): on the default (un-overridden) reference implementation,
`GetInt`, `GetDouble` and `GetString` ignore the supplied default entirely
and return the type's zero value — 0, 0.0 and the empty string view — for
every context, attribute name and default. -/
theorem c1_default_impl_returns_zero (ctx : RockflowContext) (attr : String)
    (di : Int) (dd : Rat) (ds : String) :
    (ctx.GetInt attr di).1 = 0 ∧
    (ctx.GetDouble attr dd).1 = 0 ∧
    (ctx.GetString attr ds).1 = "" :=
  ⟨rfl, rfl, rfl⟩

/-- C2: the registry entries `rockflow_context.get_item_count` and
`rockflow_context.get_item_attr_assigner` bind the method names
`GetItemCount` and `GetItemAttrAssigner`, yet no method of either name is
declared on `RockflowContext`, so these two entries cannot match the
signature of any Context Interface method they bind to. -/
theorem c2_two_entries_bind_undeclared_methods :
    rockflow_context_builtins.countP
      (fun e => e.bound_method == "GetItemCount"
             || e.bound_method == "GetItemAttrAssigner") = 2 ∧
    RockflowContext.declaredMethods.countP
      (fun m => m.name == "GetItemCount"
             || m.name == "GetItemAttrAssigner") = 0 ∧
    (∀ m ∈ RockflowContext.declaredMethods,
      ¬ entryMatchesMethod rockflow_get_item_count m) ∧
    (∀ m ∈ RockflowContext.declaredMethods,
      ¬ entryMatchesMethod rockflow_get_item_attr_assigner m) := by
  refine ⟨by decide, by decide, by decide, by decide⟩

/-- C3: `RockflowContext` in `rockflow.h` declares exactly the seven
methods listed, and `GetItemCount` is not among them; only the builtin
registry mentions that name, via the `rockflow_context.get_item_count`
entry. -/
theorem c3_get_item_count_not_declared :
    RockflowContext.declaredMethods.map MethodSig.name =
      ["GetInt", "GetDouble", "GetString", "GetIntList", "GetDoubleList",
       "GetStringList", "SetInt"] ∧
    RockflowContext.declaredMethods.countP
      (fun m => m.name == "GetItemCount") = 0 ∧
    rockflow_context_builtins.countP
      (fun e => e.obj_type == "rockflow_context"
             && e.op_name == "get_item_count") = 1 := by
  refine ⟨by decide, by decide, by decide⟩

/-- C4 counterexample: `SetInt` is a declared operation of the Context
Interface, yet no builtin registry entry binds it, so not every Context
Interface operation has a registry entry. -/
theorem c4_setint_has_no_entry :
    RockflowContext.declaredMethods.countP (fun m => m.name == "SetInt") = 1 ∧
    rockflow_context_builtins.countP
      (fun e => e.bound_method == "SetInt") = 0 := by
  refine ⟨by decide, by decide⟩

/-- C4 (amended): every read operation declared on the Context Interface
has exactly one builtin registry entry binding it, while the write
operation `SetInt` has none. -/
theorem c4_read_ops_registered_once :
    (∀ m ∈ RockflowContext.declaredMethods, m.name ≠ "SetInt" →
      rockflow_context_builtins.countP
        (fun e => e.bound_method == m.name) = 1) ∧
    rockflow_context_builtins.countP
      (fun e => e.bound_method == "SetInt") = 0 := by
  refine ⟨by decide, by decide⟩

/-- C4 witness: instantiating the amended statement at the declared method
`GetInt` yields that exactly one registry entry binds `GetInt`. -/
theorem c4_read_ops_registered_once_witness :
    rockflow_context_builtins.countP
      (fun e => e.bound_method == "GetInt") = 1 :=
  c4_read_ops_registered_once.1
    ⟨"GetInt", [CppType.stdString, CppType.int64], CppType.int64⟩
    (by decide) (by decide)

/-- C5: absent a concrete override, every method of the Context Interface
is a no-op returning the type's zero value or empty container — `GetInt`
returns 0, `GetDouble` returns 0.0, `GetString` returns the empty string
view, each list getter returns the empty sequence, and `SetInt` returns 0 —
for every context, attribute name and supplied default or value, and each
leaves the context unchanged. -/
theorem c5_default_methods_return_zero (ctx : RockflowContext)
    (attr : String) (di : Int) (dd : Rat) (ds : String) (v : Int) :
    ctx.GetInt attr di = (0, ctx) ∧
    ctx.GetDouble attr dd = (0, ctx) ∧
    ctx.GetString attr ds = ("", ctx) ∧
    ctx.GetIntList attr = ([], ctx) ∧
    ctx.GetDoubleList attr = ([], ctx) ∧
    ctx.GetStringList attr = ([], ctx) ∧
    ctx.SetInt attr v = (0, ctx) :=
  ⟨rfl, rfl, rfl, rfl, rfl, rfl, rfl⟩

/-- C6 counterexample: `SetInt` as declared in `rockflow.h` takes its value
parameter as plain C++ `int`, not `int64_t`: the declared signature list
contains `SetInt` with parameter types `(const std::string&, int)` and
contains no `SetInt` whose second parameter is `int64_t`. -/
theorem c6_setint_value_param_not_int64 :
    (⟨"SetInt", [CppType.stdString, CppType.int32], CppType.int32⟩ :
        MethodSig) ∈ RockflowContext.declaredMethods ∧
    RockflowContext.declaredMethods.countP
      (fun m => m.name == "SetInt"
             && m.params == [CppType.stdString, CppType.int64]) = 0 ∧
    CppType.int32 ≠ CppType.int64 := by
  refine ⟨by decide, by decide, by decide⟩

/-- C6 (amended): `GetInt`'s return value and default parameter and the
elements of `GetIntList`'s returned sequence are signed 64-bit integers,
but `SetInt`'s value parameter (and its return) are plain C++ `int`. -/
theorem c6_integer_attribute_types :
    (⟨"GetInt", [CppType.stdString, CppType.int64], CppType.int64⟩ :
        MethodSig) ∈ RockflowContext.declaredMethods ∧
    (⟨"GetIntList", [CppType.stdString], CppType.ftList CppType.int64⟩ :
        MethodSig) ∈ RockflowContext.declaredMethods ∧
    (⟨"SetInt", [CppType.stdString, CppType.int32], CppType.int32⟩ :
        MethodSig) ∈ RockflowContext.declaredMethods := by
  refine ⟨by decide, by decide, by decide⟩

/-- C7: on the default (un-overridden) implementation every call to
`GetIntList`, `GetDoubleList` and `GetStringList`, for every attribute
name, returns a sequence of length 0; the functions are total, so no
failure is signalled. -/
theorem c7_list_getters_return_empty (ctx : RockflowContext)
    (attr : String) :
    (ctx.GetIntList attr).1.length = 0 ∧
    (ctx.GetDoubleList attr).1.length = 0 ∧
    (ctx.GetStringList attr).1.length = 0 :=
  ⟨rfl, rfl, rfl⟩

/-- C8: for every registered builtin entry of the rockflow context, the
argument count declared by `set_num_inputs` equals the number of
`add_argument` descriptors of that entry. -/
theorem c8_num_inputs_eq_num_arguments :
    ∀ e ∈ rockflow_context_builtins, e.num_inputs = e.arguments.length := by
  decide

/-- C8 witness: instantiating at the `rockflow_context.get_int` entry, its
declared count 3 equals its three argument descriptors. -/
theorem c8_num_inputs_eq_num_arguments_witness :
    rockflow_get_int.num_inputs = rockflow_get_int.arguments.length :=
  c8_num_inputs_eq_num_arguments rockflow_get_int (by decide)

/-- C9: for every registered builtin entry of the rockflow context, the
first declared argument is named `self` with declared type
`RockflowContext` (and empty documentation string). -/
theorem c9_first_argument_is_self :
    ∀ e ∈ rockflow_context_builtins,
      e.arguments.head? = some ⟨"self", "RockflowContext", ""⟩ := by
  decide

/-- C9 witness: instantiating at the `rockflow_context.get_item_count`
entry, its first argument is `self : RockflowContext`. -/
theorem c9_first_argument_is_self_witness :
    rockflow_get_item_count.arguments.head? =
      some ⟨"self", "RockflowContext", ""⟩ :=
  c9_first_argument_is_self rockflow_get_item_count (by decide)

/-- C10: every operation of the default (un-overridden) implementation
leaves the context unchanged, and its return value is a fixed constant
independent of the context instance, the attribute name, and every other
argument (the two sides of each equation use unrelated contexts and
arguments); in particular a `GetInt` and a `SetInt` commute on the state. -/
theorem c10_default_impl_pure_and_constant (c c2 : RockflowContext)
    (a a2 : String) (di di2 : Int) (dd dd2 : Rat) (ds ds2 : String)
    (v v2 : Int) :
    c.GetInt a di = ((c2.GetInt a2 di2).1, c) ∧
    c.GetDouble a dd = ((c2.GetDouble a2 dd2).1, c) ∧
    c.GetString a ds = ((c2.GetString a2 ds2).1, c) ∧
    c.GetIntList a = ((c2.GetIntList a2).1, c) ∧
    c.GetDoubleList a = ((c2.GetDoubleList a2).1, c) ∧
    c.GetStringList a = ((c2.GetStringList a2).1, c) ∧
    c.SetInt a v = ((c2.SetInt a2 v2).1, c) ∧
    ((c.GetInt a di).2.SetInt a2 v).2 = ((c.SetInt a2 v).2.GetInt a di).2 :=
  ⟨rfl, rfl, rfl, rfl, rfl, rfl, rfl, rfl⟩
